import Mathlib

/-!
Shallow embedding of `src/main.js` of the lottie-interactivity repository.

JS numbers are modelled as exact rationals (`ℚ`); `Math.ceil` is `Rat.ceil`
(the true ceiling, which is what `Math.ceil` computes on non-NaN inputs).
The external player is a record of the playback flags the source reads or
writes (`isPaused`, `loop`, `totalFrames`); every call the source issues
against the player (`playSegments`, `goToAndStop`, `seek`, ...) is recorded
in a trace, since the engine itself is an external collaborator.

A JS value that may be `undefined` is an `Option`; reading `frames[0]` of an
absent `frames` field, or destructuring the `undefined` returned by
`boundingBoxUtils`, is a thrown `TypeError`.  Each event handler wraps its
body in `try { ... } catch {}`, so a handler is modelled in two layers: a
`...Run` function that returns the player state and call trace at the point
the body finished or threw, together with a `threw` flag, and the handler
itself, which discards the flag (the `catch` block is empty).
-/

namespace LottieIx

/-- Action descriptor supplied in the `actions` option: a normalized
position range `[start, end]`, a `type` string and an optional `frames`
field (absent `frames` is JS `undefined`). -/
structure Action where
  start : ℚ
  «end» : ℚ
  type : String
  frames : Option (List ℚ)
deriving DecidableEq, Repr

/-- Predicate of the `find` call in `boundingBoxUtils`:
`currentPercent >= start && currentPercent <= end`. -/
def within (cp : ℚ) (a : Action) : Bool :=
  decide (cp ≥ a.start) && decide (cp ≤ a.«end»)

/-- Line 61 of the source: `this.actions.find(({ start, end }) =>
currentPercent >= start && currentPercent <= end)`. -/
def actionFor (cp : ℚ) (actions : List Action) : Option Action :=
  actions.find? (within cp)

/-- Result of `container.getBoundingClientRect()`: the fields the source
reads. -/
structure Rect where
  top : ℚ
  bottom : ℚ
  height : ℚ
deriving DecidableEq, Repr

/-- Browser geometry an event handler samples: `window.innerHeight`, the
container's bounding rectangle, and the container's `offsetParent` chain
(each entry an `(offsetLeft, offsetTop)` pair) walked by the pointer
handler. -/
structure BrowserEnv where
  innerHeight : ℚ
  rect : Rect
  offsetChain : List (ℚ × ℚ)
deriving DecidableEq, Repr

/-- Value returned by `boundingBoxUtils` when it does not return
`undefined`. -/
structure BBox where
  height : ℚ
  bottom : ℚ
  currentPercent : ℚ
  action : Action
deriving DecidableEq, Repr

/-- Lines 47-69 of the source.  `none` is the bare `return` for an
out-of-viewport sample or for no matching action (JS `undefined`). -/
def boundingBoxUtils (env : BrowserEnv) (actions : List Action) : Option BBox :=
  let current := env.innerHeight - env.rect.top
  let max := env.innerHeight + env.rect.height
  let currentPercent := current / max
  if currentPercent < 0 ∨ currentPercent > 1 then
    none
  else
    match actionFor currentPercent actions with
    | none => none
    | some action => some ⟨env.rect.height, env.rect.bottom, currentPercent, action⟩

/-- The playback flags of the external player that the source reads or
writes. -/
structure Player where
  isPaused : Bool
  loop : Bool
  totalFrames : ℚ
deriving DecidableEq, Repr

/-- One call issued against the external player (or, for `seek`, against the
secondary `playerInstance` handle).  An `Option` argument is one that may be
the JS `undefined` (an absent `frames` field, `frames[0]` of an empty list,
or an omitted boolean argument, which is falsy). -/
inductive PCall where
  | playSegments (frames : Option (List ℚ)) (force : Bool)
  | resetSegments
  | stop
  | play
  | goToAndStop (frame : Option ℚ) (isFrame : Bool)
  | seek (percent : String)
deriving DecidableEq, Repr

/-- State at the end of a handler's `try` block: the player's flags, the
trace of calls issued so far, and whether the body raised a `TypeError`
(which the empty `catch` block then swallows). -/
structure HandlerRun where
  player : Player
  calls : List PCall
  threw : Bool
deriving DecidableEq, Repr

/-- Body of the `#scrollHandler` closure (lines 138-173).  Destructuring the
`undefined` of a failed `boundingBoxUtils` throws before anything happened;
`this.player.loop = true` runs as soon as an action resolved; in the
`'stop'` branch, `action.frames[0]` on an absent `frames` throws after the
loop flag was already set. -/
def scrollRun (env : BrowserEnv) (actions : List Action) (p : Player) : HandlerRun :=
  match boundingBoxUtils env actions with
  | none => ⟨p, [], true⟩
  | some bb =>
    let p' : Player := { p with loop := true }
    let a := bb.action
    if a.type = "seek" then
      ⟨p', [PCall.playSegments a.frames true,
            PCall.goToAndStop
              (some ((Rat.ceil ((bb.currentPercent - a.start) / (a.«end» - a.start) * p'.totalFrames) : ℤ) : ℚ))
              true], false⟩
    else if a.type = "loop" then
      ⟨p', if p'.isPaused then [PCall.playSegments a.frames true] else [], false⟩
    else if a.type = "play" then
      ⟨p', (if p'.isPaused then [PCall.resetSegments] else []) ++ [PCall.play], false⟩
    else if a.type = "stop" then
      match a.frames with
      | none => ⟨p', [], true⟩
      | some fs => ⟨p', [PCall.goToAndStop fs.head? false, PCall.stop], false⟩
    else ⟨p', [], false⟩

/-- The `#scrollHandler` closure as dispatched: its `catch` block is empty,
so the thrown flag is discarded and the state reached inside the `try`
block stands. -/
def scrollHandler (env : BrowserEnv) (actions : List Action) (p : Player) :
    Player × List PCall :=
  let r := scrollRun env actions p
  (r.player, r.calls)

/-- Body of the `#hoverStartHandler` closure (lines 97-119). -/
def hoverStartRun (env : BrowserEnv) (actions : List Action) (p : Player) : HandlerRun :=
  match boundingBoxUtils env actions with
  | none => ⟨p, [], true⟩
  | some bb =>
    let a := bb.action
    if a.type = "loop" then
      ⟨p, if p.isPaused then [PCall.playSegments a.frames true] else [], false⟩
    else if a.type = "play" then
      ⟨p, (if p.isPaused then [PCall.resetSegments] else []) ++ [PCall.playSegments a.frames false], false⟩
    else if a.type = "stop" then
      match a.frames with
      | none => ⟨p, [], true⟩
      | some fs => ⟨p, [PCall.goToAndStop fs.head? false, PCall.stop], false⟩
    else ⟨p, [], false⟩

/-- The `#hoverStartHandler` closure as dispatched. -/
def hoverStartHandler (env : BrowserEnv) (actions : List Action) (p : Player) :
    Player × List PCall :=
  let r := hoverStartRun env actions p
  (r.player, r.calls)

/-- Body of the `#hoverEndHandler` closure (lines 121-136).  Note the
`'stop'` branch passes the whole `frames` value to `playSegments` without
indexing, so an absent `frames` does not throw here. -/
def hoverEndRun (env : BrowserEnv) (actions : List Action) (p : Player) : HandlerRun :=
  match boundingBoxUtils env actions with
  | none => ⟨p, [], true⟩
  | some bb =>
    let a := bb.action
    if a.type = "loop" then
      ⟨p, [PCall.stop], false⟩
    else if a.type = "play" then
      ⟨p, [PCall.stop], false⟩
    else if a.type = "stop" then
      ⟨p, [PCall.playSegments a.frames true], false⟩
    else ⟨p, [], false⟩

/-- The `#hoverEndHandler` closure as dispatched. -/
def hoverEndHandler (env : BrowserEnv) (actions : List Action) (p : Player) :
    Player × List PCall :=
  let r := hoverEndRun env actions p
  (r.player, r.calls)

/-- A DOM element: the fields the source probes.  `lottie` is what
`getLottie()` returns on it (JS `undefined` when there is no embedded
player). -/
structure Elem where
  nodeName : String
  lottie : Option Nat
deriving DecidableEq, Repr

/-- Cumulative `(obj_left, obj_top)` of the `while (obj.offsetParent)` walk
in `#mousePositionHandler`. -/
def offsetSum (chain : List (ℚ × ℚ)) : ℚ × ℚ :=
  chain.foldl (fun acc o => (acc.1 + o.1, acc.2 + o.2)) (0, 0)

/-- The pointer event delivered to `onmousemove` (the handler's
`mouseEvent` parameter is always the event object in the
`addEventListener`-style dispatch the source installs, so the Firefox
branch of the handler runs). -/
structure MouseEvt where
  pageX : ℚ
  pageY : ℚ
deriving DecidableEq, Repr

/-- Body of the `#mousePositionHandler` closure (lines 174-215).
`playerInstance` is `this.playerInstance`: `none` stands for JS `undefined`
or `null`, on which the `.seek(...)` member call raises a `TypeError`
(caught by the handler). -/
def mousePositionRun (env : BrowserEnv) (actions : List Action)
    (playerInstance : Option Elem) (ev : MouseEvt) (p : Player) : HandlerRun :=
  match boundingBoxUtils env actions with
  | none => ⟨p, [], true⟩
  | some bb =>
    let off := offsetSum env.offsetChain
    let xpos := ev.pageX - off.1
    let ypos := ev.pageY - off.2
    let a := bb.action
    if a.type = "seek-yaxis" then
      let percentage : ℤ := Rat.ceil (ypos / bb.height * 100)
      match playerInstance with
      | none => ⟨p, [], true⟩
      | some _ => ⟨p, [PCall.seek (toString percentage ++ "%")], false⟩
    else if a.type = "seek-xaxis" then
      let percentage : ℤ := Rat.ceil (xpos / bb.bottom * 100)
      match playerInstance with
      | none => ⟨p, [], true⟩
      | some _ => ⟨p, [PCall.seek (toString percentage ++ "%")], false⟩
    else ⟨p, [], false⟩

/-- The `#mousePositionHandler` closure as dispatched. -/
def mousePositionHandler (env : BrowserEnv) (actions : List Action)
    (playerInstance : Option Elem) (ev : MouseEvt) (p : Player) :
    Player × List PCall :=
  let r := mousePositionRun env actions playerInstance ev p
  (r.player, r.calls)

/-- Listener registrations the instance owns: the window `scroll` listener,
the container `mouseenter`/`mouseleave` listeners, and the container's
`onmousemove` property (a single slot; `addEventListener` with the same
stable closure twice registers it once, so booleans suffice). -/
structure ListenerState where
  scrollListener : Bool
  mouseenterListener : Bool
  mouseleaveListener : Bool
  onmousemove : Bool
deriving DecidableEq, Repr

/-- Method `start()` (lines 71-84): attach the listeners of the configured
mode. -/
def start (mode : String) (ls : ListenerState) : ListenerState :=
  let ls1 := if mode = "scroll" then { ls with scrollListener := true } else ls
  let ls2 :=
    if mode = "hover" then
      { ls1 with mouseenterListener := true, mouseleaveListener := true }
    else ls1
  if mode = "mouseposition" then { ls2 with onmousemove := true } else ls2

/-- Method `stop()` (lines 86-95): it handles the `scroll` and `hover` modes
only; the source has no branch for `mouseposition`, so `onmousemove` is
never cleared. -/
def stop (mode : String) (ls : ListenerState) : ListenerState :=
  let ls1 := if mode = "scroll" then { ls with scrollListener := false } else ls
  if mode = "hover" then
    { ls1 with mouseenterListener := false, mouseleaveListener := false }
  else ls1

/-- A DOM event the host dispatches at the window or container. -/
inductive DomEvent where
  | scroll
  | mouseenter
  | mouseleave
  | mousemove (ev : MouseEvt)
deriving DecidableEq, Repr

/-- Host event dispatch: an event reaches the matching handler exactly when
that handler is currently registered; otherwise nothing of this system
runs. -/
def dispatch (ls : ListenerState) (env : BrowserEnv) (actions : List Action)
    (playerInstance : Option Elem) (p : Player) : DomEvent → Player × List PCall
  | DomEvent.scroll =>
    if ls.scrollListener then scrollHandler env actions p else (p, [])
  | DomEvent.mouseenter =>
    if ls.mouseenterListener then hoverStartHandler env actions p else (p, [])
  | DomEvent.mouseleave =>
    if ls.mouseleaveListener then hoverEndHandler env actions p else (p, [])
  | DomEvent.mousemove ev =>
    if ls.onmousemove then mousePositionHandler env actions playerInstance ev p else (p, [])

/-- The constructor's `player` option, by the runtime probes the source
applies to it: an object whose `constructor.name` is `'AnimationItem'`, a
string, an `HTMLElement`, any other truthy value, or the falsy `null` /
`undefined`.  An `AnimationItem` is identified by a number, like
`Elem.lottie`. -/
inductive PlayerOpt where
  | animationItem (a : Nat)
  | selector (s : String)
  | element (e : Elem)
  | otherTruthy
  | nullValue
  | undefinedValue
deriving DecidableEq, Repr

/-- What `this.player` holds once the constructor finished: a real
`AnimationItem`, or the selector string / element / other value the
resolution code left in place because it was truthy. -/
inductive ResolvedPlayer where
  | anim (a : Nat)
  | str (s : String)
  | elem (e : Elem)
  | other
deriving DecidableEq, Repr

/-- The `container` option: element, CSS selector, or absent. -/
inductive ContainerOpt where
  | element (e : Elem)
  | selector (s : String)
  | absent
deriving DecidableEq, Repr

/-- The document as the constructor queries it. -/
structure DomEnv where
  querySelector : String → Option Elem

/-- Fields the constructor stores.  `playerInstance` distinguishes "never
assigned" (`none`, JS `undefined`) from "assigned the `querySelector`
result" (`some x`, where `x = none` is an assigned `null`). -/
structure CtorResult where
  player : ResolvedPlayer
  playerInstance : Option (Option Elem)
  container : Option Elem
deriving DecidableEq, Repr

/-- Container resolution (lines 31-38): a selector is looked up, and a falsy
result falls back to `player.wrapper` (passed in as `wrapper`, the value
that property read yields; it is `undefined` unless the resolved player is
a real engine instance). This phase cannot throw. -/
def resolveContainer (env : DomEnv) (c : ContainerOpt) (wrapper : Option Elem) :
    Option Elem :=
  let looked : Option Elem :=
    match c with
    | ContainerOpt.element e => some e
    | ContainerOpt.selector s => env.querySelector s
    | ContainerOpt.absent => none
  match looked with
  | some e => some e
  | none => wrapper

/-- The constructor (lines 11-45), as `Except`: `Except.error ()` is a
thrown exception.  `null` throws a `TypeError` at `player.constructor`
(since `typeof null` is `'object'`); after the resolution attempts a falsy
`player` (that is, `undefined` or the empty string) hits the explicit
`throw new Error(...)`; a truthy but unusable value (unmatched non-empty
selector, non-player element, other object) is stored as-is. -/
def construct (env : DomEnv) (player : PlayerOpt) (container : ContainerOpt)
    (wrapper : Option Elem) : Except Unit CtorResult :=
  match player with
  | PlayerOpt.animationItem a =>
    Except.ok ⟨ResolvedPlayer.anim a, none, resolveContainer env container wrapper⟩
  | PlayerOpt.nullValue => Except.error ()
  | PlayerOpt.selector s =>
    match env.querySelector s with
    | some e =>
      if e.nodeName = "LOTTIE-PLAYER" then
        match e.lottie with
        | some a =>
          Except.ok ⟨ResolvedPlayer.anim a, some (some e), resolveContainer env container wrapper⟩
        | none => Except.error ()
      else if s = "" then Except.error ()
      else Except.ok ⟨ResolvedPlayer.str s, some (some e), resolveContainer env container wrapper⟩
    | none =>
      if s = "" then Except.error ()
      else Except.ok ⟨ResolvedPlayer.str s, some none, resolveContainer env container wrapper⟩
  | PlayerOpt.element e =>
    if e.nodeName = "LOTTIE-PLAYER" then
      match e.lottie with
      | some a =>
        Except.ok ⟨ResolvedPlayer.anim a, none, resolveContainer env container wrapper⟩
      | none => Except.error ()
    else Except.ok ⟨ResolvedPlayer.elem e, none, resolveContainer env container wrapper⟩
  | PlayerOpt.otherTruthy =>
    Except.ok ⟨ResolvedPlayer.other, none, resolveContainer env container wrapper⟩
  | PlayerOpt.undefinedValue => Except.error ()

/-- A stored player on which the playback calls of the handlers would be
meaningful: a real `AnimationItem` engine instance. -/
def ResolvedPlayer.isUsable : ResolvedPlayer → Bool
  | ResolvedPlayer.anim _ => true
  | _ => false

/-! Concrete scenario inputs used to instantiate the theorems below. -/

/-- A paused player with 200 total frames and the loop flag clear. -/
def p0 : Player := ⟨true, false, 200⟩

/-- Geometry of the spec's scroll scenario: viewport height 800, container
top 100, height 400 (so bottom 500): `currentPercent = 700/1200 = 7/12`. -/
def envA : BrowserEnv := ⟨800, ⟨100, 500, 400⟩, []⟩

/-- Geometry of the spec's no-match scenario: `currentPercent = 900/1000 = 9/10`. -/
def envNoMatch : BrowserEnv := ⟨900, ⟨0, 100, 100⟩, []⟩

/-- Geometry for the pointer scenario: container height 200 at top 0,
viewport 800 (`currentPercent = 4/5`), cumulative container offset
`(7, 40)`. -/
def envY : BrowserEnv := ⟨800, ⟨0, 200, 200⟩, [(3, 10), (4, 30)]⟩

/-- The spec scenario's seek action `{start:0.5, end:0.7, type:'seek', frames:[0,100]}`. -/
def actSeek : Action := ⟨1/2, 7/10, "seek", some [0, 100]⟩

/-- A stop action covering the whole range whose `frames` field is absent. -/
def actStopNoFrames : Action := ⟨0, 1, "stop", none⟩

/-- A stop action covering the whole range with frames `[5, 25]`. -/
def actStopFrames : Action := ⟨0, 1, "stop", some [5, 25]⟩

/-- The spec's no-match scenario action `{start:0, end:0.3}`. -/
def actLoopNarrow : Action := ⟨0, 3/10, "loop", some [0, 10]⟩

/-- A pointer action on `[0.5, 0.7]`, matched by `envA` geometry. -/
def actYaxis : Action := ⟨1/2, 7/10, "seek-yaxis", none⟩

/-- A pointer action eligible everywhere. -/
def actYfull : Action := ⟨0, 1, "seek-yaxis", none⟩

/-- Pointer event at page position `(0, 50)`. -/
def evA : MouseEvt := ⟨0, 50⟩

/-- Pointer event at page position `(7, 90)`: container-relative `(0, 50)`
under `envY`. -/
def evY : MouseEvt := ⟨7, 90⟩

/-- A plain element serving as an assigned `playerInstance`. -/
def elemA : Elem := ⟨"DIV", none⟩

/-- No listeners registered. -/
def ls0 : ListenerState := ⟨false, false, false, false⟩

/-- A document in which no selector matches. -/
def envDomNone : DomEnv := ⟨fun _ => none⟩

/-! Helper lemmas. -/

/-- The find predicate unfolded to the two inclusive comparisons. -/
theorem within_iff (cp : ℚ) (a : Action) :
    within cp a = true ↔ a.start ≤ cp ∧ cp ≤ a.«end» := by
  simp [within, ge_iff_le, and_comm]

/-- Everything after a matching action is irrelevant to `find`. -/
theorem find?_stops_at_match {p : Action → Bool} (l1 l2 : List Action) (b : Action)
    (hb : p b = true) :
    List.find? p (l1 ++ b :: l2) = List.find? p (l1 ++ [b]) := by
  induction l1 with
  | nil => simp [List.find?_cons, hb]
  | cons a t ih => cases h : p a <;> simp [List.find?_cons, h, ih]

/-- Claim C7: resolution scans the configured actions in declaration order
and returns the first one whose inclusive range `[start, end]` contains the
sampled `currentPercent`; of two overlapping matching actions the earlier
one always wins (everything after the first match is irrelevant). -/
theorem c7_first_match (cp : ℚ) (actions : List Action) (a : Action) :
    (actionFor cp actions = some a ↔
      (a.start ≤ cp ∧ cp ≤ a.«end») ∧
      ∃ i h, actions[i] = a ∧ ∀ j : Nat, (hj : j < i) →
        ¬(actions[j].start ≤ cp ∧ cp ≤ actions[j].«end»)) ∧
    (∀ l1 l2 b, actions = l1 ++ b :: l2 → b.start ≤ cp → cp ≤ b.«end» →
      actionFor cp actions = actionFor cp (l1 ++ [b])) := by
  constructor
  · rw [actionFor, List.find?_eq_some_iff_getElem, within_iff]
    refine and_congr_right fun _ => ⟨fun ⟨i, h, hget, hj⟩ => ⟨i, h, hget, fun j hj' => ?_⟩,
      fun ⟨i, h, hget, hj⟩ => ⟨i, h, hget, fun j hj' => ?_⟩⟩
    · have := hj j hj'
      rw [Bool.not_eq_eq_eq_not, Bool.not_true] at this
      intro hcontra
      rw [← within_iff cp _] at hcontra
      simp [this] at hcontra
    · have := hj j hj'
      rw [Bool.not_eq_eq_eq_not, Bool.not_true, ← Bool.not_eq_true, within_iff]
      exact this
  · rintro l1 l2 b rfl h1 h2
    exact find?_stops_at_match l1 l2 b ((within_iff cp b).mpr ⟨h1, h2⟩)

/-- Witness for C7: with two overlapping matching actions, the earlier one
is returned. -/
theorem c7_witness :
    actionFor (7/12) [actSeek, actStopFrames] = some actSeek := by
  have h := (c7_first_match (7/12) [actSeek, actStopFrames] actSeek).2
    [] [actStopFrames] actSeek rfl (by norm_num [actSeek]) (by norm_num [actSeek])
  rw [h]
  norm_num [actionFor, List.find?, within, actSeek]

/-- Claim C6: with a resolved action of type `stop`, the hover-enter handler
jumps to the first frame of the action's range and halts
(`goToAndStop(frames[0])` then `stop()`), while the hover-leave handler with
the same resolved action starts looping the action's frame range
(`playSegments(frames, true)`). -/
theorem c6_hover_stop_asymmetry (env : BrowserEnv) (actions : List Action)
    (p : Player) (bb : BBox) (fs : List ℚ)
    (h : boundingBoxUtils env actions = some bb)
    (htype : bb.action.type = "stop")
    (hframes : bb.action.frames = some fs) :
    hoverStartHandler env actions p = (p, [PCall.goToAndStop fs.head? false, PCall.stop]) ∧
    hoverEndHandler env actions p = (p, [PCall.playSegments (some fs) true]) := by
  constructor
  · simp only [hoverStartHandler, hoverStartRun, h]
    rw [if_neg (by simp [htype]), if_neg (by simp [htype]), if_pos htype, hframes]
  · simp only [hoverEndHandler, hoverEndRun, h]
    rw [if_neg (by simp [htype]), if_neg (by simp [htype]), if_pos htype, hframes]

/-- Witness for C6 at the concrete hover scenario: enter yields
`goToAndStop(5)` then `stop()`; leave yields `playSegments([5,25], true)`. -/
theorem c6_witness :
    hoverStartHandler envA [actStopFrames] p0 =
      (p0, [PCall.goToAndStop (some 5) false, PCall.stop]) ∧
    hoverEndHandler envA [actStopFrames] p0 =
      (p0, [PCall.playSegments (some [5, 25]) true]) := by
  have h := c6_hover_stop_asymmetry envA [actStopFrames] p0
    ⟨400, 500, 7/12, actStopFrames⟩ [5, 25]
    (by norm_num [boundingBoxUtils, actionFor, within, envA, actStopFrames, List.find?])
    rfl rfl
  simpa using h

/-- Counterexample to claim C1: in `mouseposition` mode, `stop()` does not
detach what `start()` attached — the `onmousemove` handler stays registered,
and a later pointer-move event still reaches the playback logic and issues a
player call (here a seek). -/
theorem c1_counterexample :
    (stop "mouseposition" (start "mouseposition" ls0)).onmousemove = true ∧
    (dispatch (stop "mouseposition" (start "mouseposition" ls0)) envA [actYaxis]
        (some elemA) p0 (DomEvent.mousemove evA)).2 = [PCall.seek "13%"] := by
  have hls : stop "mouseposition" (start "mouseposition" ls0) = ⟨false, false, false, true⟩ := by
    simp [start, stop, ls0]
  refine ⟨by rw [hls], ?_⟩
  rw [hls]
  norm_num [dispatch, mousePositionHandler, mousePositionRun, boundingBoxUtils,
    actionFor, within, offsetSum, envA, actYaxis, elemA, evA, List.find?]
  have hc : Rat.ceil ((25 : ℚ) / 2) = 13 := by norm_num [Rat.ceil]
  rw [hc]
  rfl

/-- Claim C1 as amended: for the `scroll` and `hover` modes, `stop()`
detaches exactly the listeners `start()` attached and a subsequent event of
the mode delivers no call into the playback logic; in `mouseposition` mode
`stop()` changes nothing and the pointer-move handler stays attached. -/
theorem c1_stop_detaches (ls : ListenerState) (env : BrowserEnv)
    (actions : List Action) (pi : Option Elem) (p : Player) :
    stop "scroll" (start "scroll" ls) = { ls with scrollListener := false } ∧
    dispatch (stop "scroll" (start "scroll" ls)) env actions pi p DomEvent.scroll = (p, []) ∧
    stop "hover" (start "hover" ls) =
      { ls with mouseenterListener := false, mouseleaveListener := false } ∧
    dispatch (stop "hover" (start "hover" ls)) env actions pi p DomEvent.mouseenter = (p, []) ∧
    dispatch (stop "hover" (start "hover" ls)) env actions pi p DomEvent.mouseleave = (p, []) ∧
    stop "mouseposition" (start "mouseposition" ls) = { ls with onmousemove := true } := by
  obtain ⟨s, me, ml, om⟩ := ls
  refine ⟨?_, ?_, ?_, ?_, ?_, ?_⟩ <;> simp [start, stop, dispatch]

/-- Counterexample to claim C2: at the spec's own no-match sample
(`currentPercent = 0.9`, single action `{start:0, end:0.3}`) the scroll
handler leaves the player's loop flag untouched: destructuring the
`undefined` returned by `boundingBoxUtils` throws before the
`this.player.loop = true` assignment, so the flag is not a standing effect
of every scroll tick. -/
theorem c2_counterexample :
    boundingBoxUtils envNoMatch [actLoopNarrow] = none ∧
    (scrollHandler envNoMatch [actLoopNarrow] p0).1.loop = false := by
  have h : boundingBoxUtils envNoMatch [actLoopNarrow] = none := by
    norm_num [boundingBoxUtils, actionFor, within, envNoMatch, actLoopNarrow, List.find?]
  exact ⟨h, by simp [scrollHandler, scrollRun, h, p0]⟩

/-- Claim C2 as amended: the scroll handler forces the player's loop flag to
true exactly when `boundingBoxUtils` resolves an action (sample in range and
some action matching); when it returns `undefined` the handler throws before
the assignment and the flag keeps its previous value. -/
theorem c2_loop_flag (env : BrowserEnv) (actions : List Action) (p : Player) :
    (scrollHandler env actions p).1.loop =
      ((boundingBoxUtils env actions).isSome || p.loop) := by
  cases h : boundingBoxUtils env actions with
  | none => simp [scrollHandler, scrollRun, h]
  | some bb =>
    simp only [scrollHandler, scrollRun, h, Option.isSome_some, Bool.true_or]
    split_ifs <;> first
      | rfl
      | (cases bb.action.frames <;> rfl)

/-- Under `envA` geometry the whole-range stop action without frames is
resolved at `currentPercent = 7/12`. -/
theorem bbA_stopNoFrames :
    boundingBoxUtils envA [actStopNoFrames] = some ⟨400, 500, 7/12, actStopNoFrames⟩ := by
  norm_num [boundingBoxUtils, actionFor, within, envA, actStopNoFrames, List.find?]

/-- Under `envA` geometry the spec scenario's seek action is resolved at
`currentPercent = 7/12`. -/
theorem bbA_actSeek :
    boundingBoxUtils envA [actSeek] = some ⟨400, 500, 7/12, actSeek⟩ := by
  norm_num [boundingBoxUtils, actionFor, within, envA, actSeek, List.find?]

/-- Under `envA` geometry the pointer action on `[0.5, 0.7]` is resolved at
`currentPercent = 7/12`. -/
theorem bbA_actYaxis :
    boundingBoxUtils envA [actYaxis] = some ⟨400, 500, 7/12, actYaxis⟩ := by
  norm_num [boundingBoxUtils, actionFor, within, envA, actYaxis, List.find?]

/-- Counterexample to claim C3: a scroll tick that resolves a `stop` action
whose `frames` field is absent throws at `action.frames[0]` after
`this.player.loop = true` already ran, so the caught exception does not
leave the player's playback state unchanged. -/
theorem c3_counterexample :
    (scrollRun envA [actStopNoFrames] p0).threw = true ∧
    (scrollRun envA [actStopNoFrames] p0).player ≠ p0 ∧
    (scrollRun envA [actStopNoFrames] p0).player = { p0 with loop := true } := by
  refine ⟨?_, ?_, ?_⟩ <;>
  · simp only [scrollRun, bbA_stopNoFrames]
    simp [actStopNoFrames, p0]

/-- Claim C3 as amended: every exception raised inside a handler body is
caught at the handler boundary (the dispatched handler is total and never
throws), and a caught exception leaves the player state unchanged and the
call trace empty in the hover and pointer handlers; in the scroll handler
the trace is empty too, but the loop flag may already have been forced to
true when the exception was raised after an action had resolved. -/
theorem c3_exception_behavior (env : BrowserEnv) (actions : List Action)
    (pi : Option Elem) (ev : MouseEvt) (p : Player) :
    ((hoverStartRun env actions p).threw = true →
      hoverStartRun env actions p = ⟨p, [], true⟩) ∧
    ((hoverEndRun env actions p).threw = true →
      hoverEndRun env actions p = ⟨p, [], true⟩) ∧
    ((mousePositionRun env actions pi ev p).threw = true →
      mousePositionRun env actions pi ev p = ⟨p, [], true⟩) ∧
    ((scrollRun env actions p).threw = true →
      (scrollRun env actions p).calls = [] ∧
      ((scrollRun env actions p).player = p ∨
       (scrollRun env actions p).player = { p with loop := true })) := by
  refine ⟨?_, ?_, ?_, ?_⟩
  · cases h : boundingBoxUtils env actions with
    | none => simp [hoverStartRun, h]
    | some bb =>
      simp only [hoverStartRun, h]
      split_ifs <;> try simp
      cases bb.action.frames <;> simp
  · cases h : boundingBoxUtils env actions with
    | none => simp [hoverEndRun, h]
    | some bb =>
      simp only [hoverEndRun, h]
      split_ifs <;> simp
  · cases h : boundingBoxUtils env actions with
    | none => simp [mousePositionRun, h]
    | some bb =>
      simp only [mousePositionRun, h]
      split_ifs <;> cases pi <;> simp
  · cases h : boundingBoxUtils env actions with
    | none => simp [scrollRun, h]
    | some bb =>
      simp only [scrollRun, h]
      split_ifs <;> try simp
      cases bb.action.frames <;> simp

/-- Witness for (amended) C3 at a concrete throwing scroll tick: the trace
is empty and the state differs from the original only in the loop flag. -/
theorem c3_witness :
    (scrollRun envA [actStopNoFrames] p0).calls = [] ∧
    ((scrollRun envA [actStopNoFrames] p0).player = p0 ∨
     (scrollRun envA [actStopNoFrames] p0).player = { p0 with loop := true }) := by
  refine (c3_exception_behavior envA [actStopNoFrames] none evA p0).2.2.2 ?_
  simp only [scrollRun, bbA_stopNoFrames]
  simp [actStopNoFrames]

/-- The pointer handler at `envA` geometry: the action on `[0.5, 0.7]` fires
(the resolution sample is `7/12`) and seeks to `ceil((50/400)*100) = 13`
percent. -/
theorem mousePositionRun_envA :
    mousePositionRun envA [actYaxis] (some elemA) evA p0 =
      ⟨p0, [PCall.seek "13%"], false⟩ := by
  simp only [mousePositionRun, bbA_actYaxis]
  norm_num [offsetSum, envA, actYaxis, evA, Rat.ceil]
  rfl

/-- Counterexample to claim C4: in `mouseposition` mode the percent that
decides which action fires is still `(viewportHeight - top) / (viewportHeight
+ height) = 7/12`, not the pointer offset normalized by the container
dimension (`50/400 = 1/8`): the action on `[0.5, 0.7]` fires and issues a
seek although the pointer-normalized percent lies outside the range. -/
theorem c4_counterexample :
    boundingBoxUtils envA [actYaxis] = some ⟨400, 500, 7/12, actYaxis⟩ ∧
    ¬(actYaxis.start ≤ (50 : ℚ) / 400 ∧ (50 : ℚ) / 400 ≤ actYaxis.«end») ∧
    (mousePositionRun envA [actYaxis] (some elemA) evA p0).calls = [PCall.seek "13%"] := by
  refine ⟨bbA_actYaxis, ?_, ?_⟩
  · norm_num [actYaxis]
  · rw [mousePositionRun_envA]

/-- Claim C4 as amended: in every mode the `currentPercent` used for action
resolution is `(viewportHeight - containerTop) / (viewportHeight +
containerHeight)` and the resolved action contains it; when the sampler
yields nothing, no handler of any mode does anything; the pointer offsets
(y normalized by the container height, x by the container's bottom
coordinate) only enter the seek percentage of the pointer handler. -/
theorem c4_resolution_percent (env : BrowserEnv) (actions : List Action) :
    (∀ bb, boundingBoxUtils env actions = some bb →
      bb.currentPercent =
        (env.innerHeight - env.rect.top) / (env.innerHeight + env.rect.height) ∧
      bb.action.start ≤ bb.currentPercent ∧ bb.currentPercent ≤ bb.action.«end») ∧
    (∀ p, boundingBoxUtils env actions = none →
      scrollRun env actions p = ⟨p, [], true⟩ ∧
      hoverStartRun env actions p = ⟨p, [], true⟩ ∧
      hoverEndRun env actions p = ⟨p, [], true⟩ ∧
      ∀ pi ev, mousePositionRun env actions pi ev p = ⟨p, [], true⟩) ∧
    (∀ p e ev bb, boundingBoxUtils env actions = some bb →
      (bb.action.type = "seek-yaxis" →
        (mousePositionRun env actions (some e) ev p).calls =
          [PCall.seek (toString (Rat.ceil
            ((ev.pageY - (offsetSum env.offsetChain).2) / bb.height * 100)) ++ "%")]) ∧
      (bb.action.type = "seek-xaxis" →
        (mousePositionRun env actions (some e) ev p).calls =
          [PCall.seek (toString (Rat.ceil
            ((ev.pageX - (offsetSum env.offsetChain).1) / bb.bottom * 100)) ++ "%")])) := by
  refine ⟨?_, ?_, ?_⟩
  · intro bb h
    simp only [boundingBoxUtils] at h
    split at h
    · exact absurd h (by simp)
    · cases hf : actionFor
          ((env.innerHeight - env.rect.top) / (env.innerHeight + env.rect.height)) actions with
      | none => rw [hf] at h; exact absurd h (by simp)
      | some a =>
        rw [hf] at h
        obtain rfl := Option.some.inj h
        have hw := (within_iff _ a).mp (List.find?_some hf)
        exact ⟨rfl, hw.1, hw.2⟩
  · intro p h
    refine ⟨by simp [scrollRun, h], by simp [hoverStartRun, h], by simp [hoverEndRun, h],
      fun pi ev => by simp [mousePositionRun, h]⟩
  · intro p e ev bb h
    constructor <;> intro ht <;> simp [mousePositionRun, h, ht]

/-- Witness for (amended) C4 at the concrete pointer scenario: the resolved
sample is `7/12`, computed by the scroll formula, and it lies inside the
resolved action's range. -/
theorem c4_witness :
    (7 : ℚ) / 12 =
      (envA.innerHeight - envA.rect.top) / (envA.innerHeight + envA.rect.height) ∧
    actYaxis.start ≤ (7 : ℚ) / 12 ∧ (7 : ℚ) / 12 ≤ actYaxis.«end» := by
  have h := (c4_resolution_percent envA [actYaxis]).1 ⟨400, 500, 7/12, actYaxis⟩ bbA_actYaxis
  simpa using h

/-- Counterexample to claim C5: at the spec's own scenario (top 100, height
400, viewport 800, action `{start:0.5, end:0.7, type:'seek',
frames:[0,100]}`, 200 total frames) the exact progress is `currentPercent =
7/12`, the mapped frame is `ceil(250/3) = 84`, and the handler invokes
`goToAndStop(84, true)` — not `goToAndStop(83, true)` as claimed (the spec
rounded `7/12` to `0.583` before multiplying). -/
theorem c5_counterexample :
    scrollHandler envA [actSeek] p0 =
      ({ p0 with loop := true },
       [PCall.playSegments (some [0, 100]) true, PCall.goToAndStop (some 84) true]) ∧
    PCall.goToAndStop (some 83) true ∉ (scrollHandler envA [actSeek] p0).2 := by
  have hrun : scrollHandler envA [actSeek] p0 =
      ({ p0 with loop := true },
       [PCall.playSegments (some [0, 100]) true, PCall.goToAndStop (some 84) true]) := by
    simp only [scrollHandler, scrollRun, bbA_actSeek]
    norm_num [actSeek, p0, Rat.ceil]
  refine ⟨hrun, ?_⟩
  rw [hrun]
  norm_num
  decide

/-- Claim C5 as amended: in scroll mode a resolved `seek` action first
primes the action's frame range without auto-advancing
(`playSegments(frames, true)`) and then jumps in frame units to
`ceil(((currentPercent - start) / (end - start)) * totalFrames)` with the
loop flag forced true; at the spec's scenario the invoked call is
`goToAndStop(84, true)`. -/
theorem c5_seek (env : BrowserEnv) (actions : List Action) (p : Player) (bb : BBox)
    (h : boundingBoxUtils env actions = some bb) (htype : bb.action.type = "seek") :
    scrollHandler env actions p =
      ({ p with loop := true },
       [PCall.playSegments bb.action.frames true,
        PCall.goToAndStop
          (some ((Rat.ceil ((bb.currentPercent - bb.action.start) /
            (bb.action.«end» - bb.action.start) * p.totalFrames) : ℤ) : ℚ)) true]) := by
  simp [scrollHandler, scrollRun, h, htype]

/-- Witness for (amended) C5: the scenario's call sequence, with frame 84. -/
theorem c5_witness :
    (scrollHandler envA [actSeek] p0).2 =
      [PCall.playSegments (some [0, 100]) true, PCall.goToAndStop (some 84) true] := by
  have h := c5_seek envA [actSeek] p0 ⟨400, 500, 7/12, actSeek⟩ bbA_actSeek rfl
  rw [h]
  norm_num [actSeek, p0, Rat.ceil]

/-- Claim C8: in `mouseposition` mode with a resolved action, `seek-yaxis`
seeks to `ceil((ypos / height) * 100)` percent and `seek-xaxis` to
`ceil((xpos / bottom) * 100)` percent — the x divisor is the container's
bottom coordinate, not its width — each as a single percent-string seek on
the secondary handle. -/
theorem c8_mouseposition_seek (env : BrowserEnv) (actions : List Action) (e : Elem)
    (ev : MouseEvt) (p : Player) (bb : BBox)
    (h : boundingBoxUtils env actions = some bb) :
    (bb.action.type = "seek-yaxis" →
      mousePositionRun env actions (some e) ev p =
        ⟨p, [PCall.seek (toString (Rat.ceil
          ((ev.pageY - (offsetSum env.offsetChain).2) / bb.height * 100)) ++ "%")], false⟩) ∧
    (bb.action.type = "seek-xaxis" →
      mousePositionRun env actions (some e) ev p =
        ⟨p, [PCall.seek (toString (Rat.ceil
          ((ev.pageX - (offsetSum env.offsetChain).1) / bb.bottom * 100)) ++ "%")], false⟩) := by
  constructor <;> intro ht <;> simp [mousePositionRun, h, ht]

/-- Witness for C8: the spec scenario — container height 200,
container-relative y offset 50 — yields exactly one `seek("25%")` call. -/
theorem c8_witness :
    mousePositionRun envY [actYfull] (some elemA) evY p0 =
      ⟨p0, [PCall.seek "25%"], false⟩ ∧
    (mousePositionRun envY [actYfull] (some elemA) evY p0).calls.length = 1 := by
  have hbb : boundingBoxUtils envY [actYfull] = some ⟨200, 200, 4/5, actYfull⟩ := by
    norm_num [boundingBoxUtils, actionFor, within, envY, actYfull, List.find?]
  have h := (c8_mouseposition_seek envY [actYfull] elemA evY p0 _ hbb).1 rfl
  rw [h] at *
  constructor
  · norm_num [offsetSum, envY, evY, Rat.ceil]
    rfl
  · rfl

/-- Counterexample to claim C9: a non-empty selector string that matches no
element leaves the string itself — truthy — in `this.player`, so
construction returns normally although no usable player reference was
resolved; the claimed "throws exactly when no usable player can be
resolved" fails in the only-if direction. -/
theorem c9_counterexample :
    construct envDomNone (PlayerOpt.selector "#nope") ContainerOpt.absent none =
      Except.ok ⟨ResolvedPlayer.str "#nope", some none, none⟩ ∧
    (ResolvedPlayer.str "#nope").isUsable = false := by
  exact ⟨by simp [construct, envDomNone, resolveContainer], rfl⟩

/-- Claim C9 as amended: construction throws exactly when the `player`
value left after the resolution attempts is falsy — the option was `null`
or `undefined`, the selector was the empty string and no embedded player
was extracted, or a `lottie-player` element (given directly or found by the
selector) yielded no embedded player.  A truthy but unusable value (a
non-empty selector matching nothing or matching a non-player element, a
plain element, any other truthy object) is stored as the player and
construction returns normally; no other option — in particular no container
irregularity — throws. -/
theorem c9_construct_errors (env : DomEnv) (popt : PlayerOpt)
    (copt : ContainerOpt) (w : Option Elem) :
    construct env popt copt w = Except.error () ↔
      (popt = PlayerOpt.nullValue ∨ popt = PlayerOpt.undefinedValue ∨
       (∃ e, popt = PlayerOpt.element e ∧
          e.nodeName = "LOTTIE-PLAYER" ∧ e.lottie = none) ∨
       (∃ s, popt = PlayerOpt.selector s ∧
         ((∃ e, env.querySelector s = some e ∧
            e.nodeName = "LOTTIE-PLAYER" ∧ e.lottie = none) ∨
          (s = "" ∧ ∀ e, env.querySelector s = some e →
            e.nodeName ≠ "LOTTIE-PLAYER")))) := by
  cases popt with
  | animationItem a => simp [construct]
  | nullValue => simp [construct]
  | undefinedValue => simp [construct]
  | otherTruthy => simp [construct]
  | element e =>
    by_cases hn : e.nodeName = "LOTTIE-PLAYER"
    · cases hl : e.lottie <;> simp [construct, hn, hl]
    · simp [construct, hn]
  | selector s =>
    cases hq : env.querySelector s with
    | none =>
      by_cases hs : s = ""
      · subst hs; simp [construct, hq]
      · simp [construct, hq, hs]
    | some e =>
      by_cases hn : e.nodeName = "LOTTIE-PLAYER"
      · cases hl : e.lottie <;> simp [construct, hq, hn, hl]
      · by_cases hs : s = ""
        · subst hs; simp [construct, hq, hn]
        · simp [construct, hq, hn, hs]

/-- Witness for (amended) C9: an absent `player` option throws. -/
theorem c9_witness :
    construct envDomNone PlayerOpt.undefinedValue ContainerOpt.absent none =
      Except.error () := by
  exact (c9_construct_errors envDomNone PlayerOpt.undefinedValue
    ContainerOpt.absent none).mpr (Or.inr (Or.inl rfl))

/-- Claim C10: `playerInstance` is assigned only on the string-selector
path: construction from a pre-resolved instance or from an element leaves
it `undefined`; consequently, in `mouseposition` mode a pointer move with a
matching `seek-yaxis`/`seek-xaxis` action issues no seek call and surfaces
no error (the member call on `undefined` throws a `TypeError` that the
handler catches, leaving the player untouched). -/
theorem c10_player_instance (env : DomEnv) (copt : ContainerOpt) (w : Option Elem)
    (envB : BrowserEnv) (actions : List Action) (ev : MouseEvt) (p : Player) :
    (∀ a, (construct env (PlayerOpt.animationItem a) copt w).map
        CtorResult.playerInstance = Except.ok none) ∧
    (∀ e r, construct env (PlayerOpt.element e) copt w = Except.ok r →
      r.playerInstance = none) ∧
    (∀ bb, boundingBoxUtils envB actions = some bb →
      (bb.action.type = "seek-yaxis" ∨ bb.action.type = "seek-xaxis") →
      mousePositionRun envB actions none ev p = ⟨p, [], true⟩ ∧
      mousePositionHandler envB actions none ev p = (p, [])) := by
  refine ⟨fun a => rfl, ?_, ?_⟩
  · intro e r h
    by_cases hn : e.nodeName = "LOTTIE-PLAYER"
    · cases hl : e.lottie with
      | none => simp [construct, hn, hl] at h
      | some a =>
        simp only [construct, hn, if_pos, hl] at h
        cases h
        rfl
    · simp only [construct, if_neg hn] at h
      cases h
      rfl
  · intro bb hbb htype
    rcases htype with ht | ht <;>
      constructor <;>
        simp [mousePositionRun, mousePositionHandler, hbb, ht]

/-- Witness for C10 at the concrete pointer scenario: with an unassigned
`playerInstance` the matching `seek-yaxis` action produces no call and the
handler returns the player unchanged. -/
theorem c10_witness :
    mousePositionRun envA [actYaxis] none evA p0 = ⟨p0, [], true⟩ ∧
    mousePositionHandler envA [actYaxis] none evA p0 = (p0, []) := by
  exact (c10_player_instance envDomNone ContainerOpt.absent none envA [actYaxis]
    evA p0).2.2 ⟨400, 500, 7/12, actYaxis⟩ bbA_actYaxis (Or.inl rfl)

end LottieIx
